import Mathlib

/-!
Verification of the ChatServer repository's message ingestion and listing
logic against its natural-language specification.

The repository is a collection of near-duplicate Express servers.  Each
variant is embedded separately, under a name recording which source file it
comes from:

* serverJs...     : src/server.js, first variant (in-memory store, yt-dlp)
* serverJsCrdb... : src/server.js, second variant (CockroachDB)
* part000...      : src/unnamed/part_000 (CockroachDB, uuid ids, trimming)
* part001...      : src/unnamed/part_001 (in-memory, 500-message cap)
* part005...      : src/unnamed/part_005 (pg, trim, DESC-then-reverse list)
* part007...      : src/unnamed/part_007 (pg, image truncation at 50MB)
* part008...      : src/unnamed/part_008 (pg, DESC-then-reverse list)

JavaScript conventions carried over into the model:
* an absent field of req.body is None, a present field Some;
* JS truthiness on strings ("" is falsy) is strTruthy / tsTruthy below;
* JS strings are modelled as Lean String (lengths count characters);
* Date.now() and external collaborators (the pg pool, Cloudinary, ytdl)
  are passed in as explicit arguments: a Nat clock value, an
  Except-valued download / upload outcome, or a parse function standing
  for the JS Date / SQL timestamp conversion.
-/

/-- A timestamp value arriving in a JSON body: a number or a string. -/
inductive TsVal where
  | num (n : Int)
  | str (s : String)
deriving DecidableEq, Repr

/-- JS truthiness of an optional string field: undefined and "" are falsy. -/
def strTruthy : Option String → Bool
  | none => false
  | some s => s != ""

/-- JS truthiness of an optional timestamp field: undefined, 0 and "" are falsy. -/
def tsTruthy : Option TsVal → Bool
  | none => false
  | some (.num n) => n != 0
  | some (.str s) => s != ""

/-- The JS expression (x || null): empty strings collapse to null. -/
def orNull : Option String → Option String
  | none => none
  | some s => if s = "" then none else some s

/-- An inbound POST /messages body.  Every variant destructures the same
req.body; each handler reads only the fields its source mentions. -/
structure Payload where
  username : Option String
  text : Option String
  image : Option String
  videoUrl : Option String
  timestamp : Option TsVal
  device : Option String
deriving DecidableEq, Repr

/-! ## src/server.js, first variant: in-memory store -/

/-- A record of the in-memory messages array of src/server.js. -/
structure SMsg where
  id : String
  username : String
  text : Option String
  image : Option String
  videoUrl : Option String
  timestamp : Option TsVal
  youtubeUrl : Option String
deriving DecidableEq, Repr

/-- An HTTP response of the in-memory variant: status code and success flag. -/
structure PostResp where
  status : Nat
  success : Bool
deriving DecidableEq, Repr

/-- The message object built by POST /messages in src/server.js lines 42-49:
id is Date.now().toString(), the other fields are stored as received
(text/image/videoUrl through the JS (x || null) default, timestamp verbatim). -/
def serverJsMessage (p : Payload) (now : Nat) : SMsg :=
  { id := Nat.repr now
    username := p.username.getD ""
    text := orNull p.text
    image := orNull p.image
    videoUrl := orNull p.videoUrl
    timestamp := p.timestamp
    youtubeUrl := none }

/-- POST /messages of src/server.js lines 35-53: reject with 400 when
username is falsy or all of text/image/videoUrl are falsy, otherwise push
the message and answer success. -/
def serverJsPost (p : Payload) (now : Nat) (store : List SMsg) :
    PostResp × List SMsg :=
  if !strTruthy p.username ||
      (!strTruthy p.text && !strTruthy p.image && !strTruthy p.videoUrl) then
    ({ status := 400, success := false }, store)
  else
    ({ status := 200, success := true }, store ++ [serverJsMessage p now])

/-- GET /messages of src/server.js lines 30-32: res.json(messages), the raw
array in insertion order. -/
def serverJsGet (store : List SMsg) : List SMsg :=
  store

/-- DELETE /messages/clear of src/server.js lines 56-59: messages = []. -/
def serverJsClear (_store : List SMsg) : List SMsg :=
  []

/-- The routes registered by the first variant of src/server.js
(the app.get / app.post / app.delete calls). -/
def serverJsRoutes : List (String × String) :=
  [("GET", "/messages"), ("POST", "/messages"), ("DELETE", "/messages/clear"),
   ("POST", "/upload"), ("POST", "/download-youtube"), ("GET", "/health-check")]

/-- The anchored regex of src/server.js line 125 as a prefix test:
an optional http:// or https:// scheme, an optional www., then
youtube.com/ or youtu.be/. -/
def ytRegexTest (u : String) : Bool :=
  ["", "http://", "https://"].any fun sc =>
    ["", "www."].any fun w =>
      ["youtube.com/", "youtu.be/"].any fun h =>
        (sc ++ w ++ h).data.isPrefixOf u.data

/-- The body of POST /download-youtube. -/
structure DYReq where
  youtubeUrl : Option String
  username : Option String
  timestamp : Option TsVal
deriving DecidableEq, Repr

/-- The message pushed by src/server.js lines 186-194 after a successful
download and upload: the Cloudinary secure_url with a quality suffix. -/
def dyMessage (p : DYReq) (url : String) (now : Nat) : SMsg :=
  { id := Nat.repr now
    username := p.username.getD ""
    text := none
    image := none
    videoUrl := some (url ++ "?quality=auto:good&fetch_format=mp4")
    timestamp := p.timestamp
    youtubeUrl := p.youtubeUrl }

/-- POST /download-youtube of src/server.js lines 100-229.  The yt-dlp run
and the Cloudinary upload are external collaborators, passed in as their
outcomes: an Except carrying the downloaded byte count or the error text,
and an Except carrying the secure_url or the upload error. -/
def downloadYoutube (p : DYReq) (ytdlp : Except String Nat)
    (upload : Except String String) (now : Nat) (store : List SMsg) :
    PostResp × List SMsg :=
  if !strTruthy p.youtubeUrl then
    ({ status := 400, success := false }, store)
  else if !strTruthy p.username || !tsTruthy p.timestamp then
    ({ status := 400, success := false }, store)
  else if !ytRegexTest (p.youtubeUrl.getD "") then
    ({ status := 400, success := false }, store)
  else
    match ytdlp with
    | .error _ => ({ status := 500, success := false }, store)
    | .ok _ =>
      match upload with
      | .error _ => ({ status := 500, success := false }, store)
      | .ok url =>
        ({ status := 200, success := true }, store ++ [dyMessage p url now])

/-! ## src/server.js, second variant: CockroachDB -/

/-- A row of the messages table as the pg variants return it: the id from
the database, username and text, and the timestamp as epoch milliseconds
(the API-boundary representation). -/
structure PMsg where
  id : String
  username : String
  text : String
  timestamp : Int
deriving DecidableEq, Repr

/-- A response carrying only a status code (the pg variants). -/
structure Resp where
  status : Nat
deriving DecidableEq, Repr

/-- The JS expression (Number(req.query.limit) || 50): an absent, zero or
unparseable limit falls back to 50. -/
def jsLimit : Option Nat → Nat
  | none => 50
  | some 0 => 50
  | some n => n

/-- One step of an insertion sort placing the larger timestamp first,
modelling the SQL ORDER BY timestamp DESC. -/
def insertDescPM (m : PMsg) : List PMsg → List PMsg
  | [] => [m]
  | x :: xs =>
    if x.timestamp ≤ m.timestamp then m :: x :: xs else x :: insertDescPM m xs

/-- ORDER BY timestamp DESC over the whole table. -/
def sortDescPM (l : List PMsg) : List PMsg :=
  l.foldr insertDescPM []

/-- One step of an insertion sort placing the smaller timestamp first,
modelling the SQL ORDER BY timestamp ASC. -/
def insertAscPM (m : PMsg) : List PMsg → List PMsg
  | [] => [m]
  | x :: xs =>
    if m.timestamp ≤ x.timestamp then m :: x :: xs else x :: insertAscPM m xs

/-- ORDER BY timestamp ASC over the whole table. -/
def sortAscPM (l : List PMsg) : List PMsg :=
  l.foldr insertAscPM []

/-- GET /messages of the CockroachDB variant of src/server.js lines 355-368:
ORDER BY timestamp ASC LIMIT (parseInt(limit) || 50), with no upper cap and
no reversal, so the limit keeps the oldest rows. -/
def serverJsCrdbGet (store : List PMsg) (q : Option Nat) : List PMsg :=
  (sortAscPM store).take (jsLimit q)

/-! ## src/unnamed/part_008: pg, DESC then reverse -/

/-- GET /messages of src/unnamed/part_008 lines 24-40:
limit = min(Number(req.query.limit) || 50, 100), ORDER BY timestamp DESC
LIMIT limit, then rows.reverse() for oldest-first delivery. -/
def part008Get (store : List PMsg) (q : Option Nat) : List PMsg :=
  ((sortDescPM store).take (min (jsLimit q) 100)).reverse

/-- JavaScript String.prototype.trim: strip leading and trailing
whitespace.  (Spelled out over the character list so that concrete
instances evaluate inside the kernel.) -/
def jsTrim (s : String) : String :=
  String.mk
    (((s.data.dropWhile Char.isWhitespace).reverse.dropWhile
        Char.isWhitespace).reverse)

/-- JS truthiness of (x?.trim()): absent stays falsy, otherwise the string
is trimmed first, so a whitespace-only string is falsy. -/
def trimTruthy : Option String → Bool
  | none => false
  | some s => jsTrim s != ""

/-- POST /messages of src/unnamed/part_008 lines 43-63: reject 400 when
username or text is absent or blank after trimming or timestamp is falsy;
otherwise insert the trimmed username and text with a database-generated
uuid, converting the numeric timestamp.  The pg conversion of the supplied
epoch value is passed in as sqlTs; a conversion failure surfaces as the
caught 500 with no row inserted.  The table's username column is
VARCHAR(50) (initDB, line 71): a trimmed username over 50 characters makes
the INSERT raise, caught as the same 500 with no row. -/
def part008Post (p : Payload) (uuid : String) (sqlTs : Option TsVal → Option Int)
    (store : List PMsg) : Resp × List PMsg :=
  if !trimTruthy p.username || !trimTruthy p.text || !tsTruthy p.timestamp then
    ({ status := 400 }, store)
  else
    match sqlTs p.timestamp with
    | none => ({ status := 500 }, store)
    | some ts =>
      if 50 < (jsTrim (p.username.getD "")).length then
        ({ status := 500 }, store)
      else
        ({ status := 201 },
          store ++ [{ id := uuid, username := jsTrim (p.username.getD ""),
                      text := jsTrim (p.text.getD ""), timestamp := ts }])

/-! ## src/unnamed/part_005: pg, trim, DESC then reverse -/

/-- GET /messages of src/unnamed/part_005 lines 22-37: the same
min(limit || 50, 100), ORDER BY timestamp DESC LIMIT, reverse. -/
def part005Get (store : List PMsg) (q : Option Nat) : List PMsg :=
  ((sortDescPM store).take (min (jsLimit q) 100)).reverse

/-- POST /messages of src/unnamed/part_005 lines 40-68: reject 400 when
username or text is absent or blank after trimming; otherwise insert the
trimmed username and text — no JS-side truncation is applied.  The
timestamp interpolation into SQL (a string cast to timestamptz, or
to_timestamp(Number(timestamp)/1000)) is the external pg conversion sqlTs;
its failure is the caught 500 with no row inserted.  The table's username
column is VARCHAR(50) (initDB, line 76): a trimmed username over 50
characters makes the INSERT raise value-too-long, caught as the same 500
with no row — rejection, never truncation.  The text column is TEXT,
unbounded. -/
def part005Post (p : Payload) (uuid : String) (sqlTs : Option TsVal → Option Int)
    (store : List PMsg) : Resp × List PMsg :=
  if !trimTruthy p.username || !trimTruthy p.text then
    ({ status := 400 }, store)
  else
    match sqlTs p.timestamp with
    | none => ({ status := 500 }, store)
    | some ts =>
      if 50 < (jsTrim (p.username.getD "")).length then
        ({ status := 500 }, store)
      else
        ({ status := 201 },
          store ++ [{ id := uuid, username := jsTrim (p.username.getD ""),
                      text := jsTrim (p.text.getD ""), timestamp := ts }])

/-- The default request-body limit of the bare express.json() middleware
of src/unnamed/part_005 line 6: 100kb. -/
def part005BodyLimit : Nat := 100 * 1024

/-- POST /messages of part_005 including the express.json body-parser
stage: a request whose raw body (bodyLen bytes) exceeds the limit is
answered 413 Payload Too Large by the parser and the handler never runs. -/
def part005Route (bodyLen : Nat) (p : Payload) (uuid : String)
    (sqlTs : Option TsVal → Option Int) (store : List PMsg) :
    Resp × List PMsg :=
  if bodyLen > part005BodyLimit then ({ status := 413 }, store)
  else part005Post p uuid sqlTs store

/-! ## src/unnamed/part_000: CockroachDB, uuid ids, trimming, ISO timestamps -/

/-- A row of the part_000 messages table: the timestamp is stored and
returned as the ISO string produced by new Date(...).toISOString(). -/
structure C0Msg where
  id : String
  username : String
  text : Option String
  image : Option String
  videoUrl : Option String
  timestamp : String
deriving DecidableEq, Repr

/-- The row inserted by part_000 lines 183-196. -/
def part000Msg (p : Payload) (uuid ts : String) : C0Msg :=
  { id := uuid
    username := String.mk ((jsTrim (p.username.getD "")).data.take 255)
    text := orNull p.text
    image := orNull p.image
    videoUrl := orNull p.videoUrl
    timestamp := ts }

/-- POST /messages of src/unnamed/part_000 lines 162-223.
Validation: username must be truthy and non-blank after trimming
(400 otherwise), and at least one of text/image/videoUrl must be truthy
(400 otherwise).  The timestamp is new Date(timestamp).toISOString() when
the field is truthy and new Date().toISOString() otherwise; the JS Date
conversion is the external parseIso, whose failure (the RangeError thrown
by toISOString on an invalid date) is the caught 500 with no row
inserted.  uuid is the uuidv4() draw, nowIso the current server time. -/
def part000Post (p : Payload) (uuid : String) (nowIso : String)
    (parseIso : TsVal → Option String) (store : List C0Msg) :
    Resp × List C0Msg :=
  if !strTruthy p.username || jsTrim (p.username.getD "") == "" then
    ({ status := 400 }, store)
  else if !strTruthy p.text && !strTruthy p.image && !strTruthy p.videoUrl then
    ({ status := 400 }, store)
  else
    let tsRes : Option String :=
      if tsTruthy p.timestamp then parseIso (p.timestamp.getD (.num 0))
      else some nowIso
    match tsRes with
    | none => ({ status := 500 }, store)
    | some ts => ({ status := 200 }, store ++ [part000Msg p uuid ts])

/-! ## src/unnamed/part_001: in-memory, 500-message retention cap -/

/-- A record of the part_001 in-memory array. -/
structure UMsg where
  id : String
  username : String
  text : String
  timestamp : TsVal
deriving DecidableEq, Repr

/-- The record pushed by src/unnamed/part_001 lines 26-31: a fresh uuid()
and the three request fields as received. -/
def part001Msg (p : Payload) (uuid : String) : UMsg :=
  { id := uuid
    username := p.username.getD ""
    text := p.text.getD ""
    timestamp := p.timestamp.getD (.num 0) }

/-- POST /messages of src/unnamed/part_001 lines 19-39: 400 when username,
text or timestamp is falsy; otherwise push {id: uuid(), username, text,
timestamp} and, when the array exceeds 500 entries, keep only the last 500
(messages.slice(-500)). -/
def part001Post (p : Payload) (uuid : String) (store : List UMsg) :
    Resp × List UMsg :=
  if !strTruthy p.username || !strTruthy p.text || !tsTruthy p.timestamp then
    ({ status := 400 }, store)
  else
    let s2 := store ++ [part001Msg p uuid]
    ({ status := 201 }, if s2.length > 500 then s2.drop (s2.length - 500) else s2)

/-- GET /messages of src/unnamed/part_001 lines 13-17:
messages.slice(max(length - limit, 0)), the most recent limit entries in
insertion order. -/
def part001Get (store : List UMsg) (q : Option Nat) : List UMsg :=
  store.drop (store.length - jsLimit q)

/-! ## src/unnamed/part_007: pg, image truncation instead of rejection -/

/-- A row of the part_007 messages table. -/
structure DMsg where
  id : String
  username : String
  text : String
  image : Option String
  device : String
  timestamp : Int
deriving DecidableEq, Repr

/-- POST /messages of src/unnamed/part_007 lines 49-89: reject 400 when
username is absent or blank after trimming, or when text is blank after
trimming and no image is present.  An image longer than 50000000 characters
is NOT rejected: it is truncated to its first 50000000 characters
(image.substring(0, 50000000)) and the row is stored.  The timestamp is
new Date() when the field is falsy, else the JS Date conversion parseDate
of the supplied value; an invalid date makes the insert fail with the
caught 500 and no row.  The username and device columns are VARCHAR(100)
(initDB, lines 100 and 103): an over-long value makes the INSERT raise
value-too-long, caught as the same 500 with no row.  The image column is
TEXT, unbounded. -/
def part007Post (p : Payload) (uuid : String) (parseDate : TsVal → Option Int)
    (now : Int) (store : List DMsg) : Resp × List DMsg :=
  if !trimTruthy p.username || (!trimTruthy p.text && !strTruthy p.image) then
    ({ status := 400 }, store)
  else
    let imageToStore : Option String :=
      if strTruthy p.image && (p.image.getD "").length > 50000000 then
        some (String.mk ((p.image.getD "").data.take 50000000))
      else p.image
    let ts? : Option Int :=
      if tsTruthy p.timestamp then parseDate (p.timestamp.getD (.num 0))
      else some now
    match ts? with
    | none => ({ status := 500 }, store)
    | some ts =>
      let deviceInfo :=
        match p.device with
        | some d => if d = "" then "Unknown" else d
        | none => "Unknown"
      if 100 < (jsTrim (p.username.getD "")).length ∨ 100 < deviceInfo.length then
        ({ status := 500 }, store)
      else
        ({ status := 201 },
          store ++ [{ id := uuid, username := jsTrim (p.username.getD ""),
                      text := jsTrim (p.text.getD ""), image := imageToStore,
                      device := deviceInfo, timestamp := ts }])

/-- The '100mb' request-body limit of the express.json / express.raw /
express.urlencoded middleware of src/unnamed/part_007 lines 7-9, in
bytes. -/
def part007BodyLimit : Nat := 100 * 1024 * 1024

/-- POST /messages of part_007 including the express body-parser stage: a
request whose raw body (bodyLen bytes) exceeds the 100mb limit is answered
413 Payload Too Large by the parser and the handler never runs. -/
def part007Route (bodyLen : Nat) (p : Payload) (uuid : String)
    (parseDate : TsVal → Option Int) (now : Int) (store : List DMsg) :
    Resp × List DMsg :=
  if bodyLen > part007BodyLimit then ({ status := 413 }, store)
  else part007Post p uuid parseDate now store

/-! ## Statement-level observations and concrete inputs -/

/-- The three-row store of the concrete limit scenario: timestamps 100,
200 and 300. -/
def c3Store : List PMsg :=
  [⟨"i1", "a", "x", 100⟩, ⟨"i2", "b", "y", 200⟩, ⟨"i3", "c", "z", 300⟩]

/-- Observation used to state ordering claims over the in-memory variant:
the numeric value of a stored timestamp (0 for a missing or string one). -/
def tsNumOf (m : SMsg) : Int :=
  match m.timestamp with
  | some (.num n) => n
  | _ => 0

/-- A 6000-character text, exercising the truncation claim. -/
def bigText : String := String.mk (List.replicate 6000 'a')

/-- The oversized-text payload of the truncation claim, with a
whitespace-padded username. -/
def bigTextPayload : Payload :=
  { username := some " carol ", text := some bigText, image := none,
    videoUrl := none, timestamp := some (.num 1), device := none }

/-- The url carried by a successful upload outcome ("" for a failed one);
observation used to state the success case of the remote-video intake. -/
def extractOk : Except String String → String
  | .ok u => u
  | .error _ => ""

/-- A 50000001-character inline image, one character over the part_007
storage ceiling. -/
def bigImage : String := String.mk (List.replicate 50000001 'a')

/-! ## Helper lemmas -/

theorem stringMkLength (cs : List Char) : (String.mk cs).length = cs.length :=
  rfl

theorem insertDescPM_perm (m : PMsg) (l : List PMsg) :
    List.Perm (insertDescPM m l) (m :: l) := by
  induction l with
  | nil => simp [insertDescPM]
  | cons x xs ih =>
    simp only [insertDescPM]
    split
    · exact List.Perm.refl _
    · exact (ih.cons x).trans (List.Perm.swap m x xs)

theorem sortDescPM_perm (l : List PMsg) : List.Perm (sortDescPM l) l := by
  induction l with
  | nil => simp [sortDescPM]
  | cons x xs ih =>
    exact (insertDescPM_perm x (sortDescPM xs)).trans (ih.cons x)

theorem insertDescPM_sorted (m : PMsg) (l : List PMsg)
    (h : l.Pairwise fun a b => b.timestamp ≤ a.timestamp) :
    (insertDescPM m l).Pairwise fun a b => b.timestamp ≤ a.timestamp := by
  induction l with
  | nil => simp [insertDescPM]
  | cons x xs ih =>
    rw [List.pairwise_cons] at h
    obtain ⟨hx, hxs⟩ := h
    by_cases hc : x.timestamp ≤ m.timestamp
    · simp only [insertDescPM, if_pos hc]
      refine List.Pairwise.cons ?_ (List.Pairwise.cons hx hxs)
      intro y hy
      rcases List.mem_cons.mp hy with rfl | hy
      · exact hc
      · exact le_trans (hx y hy) hc
    · simp only [insertDescPM, if_neg hc]
      refine List.Pairwise.cons ?_ (ih hxs)
      intro y hy
      rcases List.mem_cons.mp ((insertDescPM_perm m xs).mem_iff.mp hy) with rfl | hy
      · exact le_of_lt (lt_of_not_le hc)
      · exact hx y hy

theorem sortDescPM_sorted (l : List PMsg) :
    (sortDescPM l).Pairwise fun a b => b.timestamp ≤ a.timestamp := by
  induction l with
  | nil => simp [sortDescPM]
  | cons x xs ih => exact insertDescPM_sorted x (sortDescPM xs) ih

theorem part008Get_sorted (store : List PMsg) (q : Option Nat) :
    (part008Get store q).Pairwise fun a b => a.timestamp ≤ b.timestamp := by
  unfold part008Get
  rw [List.pairwise_reverse]
  exact List.Pairwise.sublist (List.take_sublist _ _) (sortDescPM_sorted store)

theorem part008Get_length (store : List PMsg) (q : Option Nat) :
    (part008Get store q).length = min (min (jsLimit q) 100) store.length := by
  unfold part008Get
  rw [List.length_reverse, List.length_take, (sortDescPM_perm store).length_eq]

theorem part008Get_mem (store : List PMsg) (q : Option Nat) :
    ∀ x ∈ part008Get store q, x ∈ store := by
  intro x hx
  unfold part008Get at hx
  rw [List.mem_reverse] at hx
  exact (sortDescPM_perm store).mem_iff.mp (List.Sublist.mem hx (List.take_sublist _ _))

theorem part008Get_most_recent (store : List PMsg) (q : Option Nat) :
    ∀ y ∈ store, y ∉ part008Get store q →
      ∀ x ∈ part008Get store q, y.timestamp ≤ x.timestamp := by
  intro y hy hyn x hx
  unfold part008Get at hyn hx
  rw [List.mem_reverse] at hyn hx
  have hsplit := List.take_append_drop (min (jsLimit q) 100) (sortDescPM store)
  have hsorted := sortDescPM_sorted store
  rw [← hsplit, List.pairwise_append] at hsorted
  have hy2 : y ∈ sortDescPM store := (sortDescPM_perm store).mem_iff.mpr hy
  rw [← hsplit, List.mem_append] at hy2
  rcases hy2 with hy2 | hy2
  · exact absurd hy2 hyn
  · exact hsorted.2.2 x hx y hy2

/-! ## Claims -/

/-- C1 is false of the first variant of src/server.js: a POST /messages
whose username is "   " (non-empty, but empty after trimming) and whose
text is present is accepted with HTTP 200 and appends a record, instead of
failing with a validation error and leaving the store unchanged. -/
theorem C1_counterexample :
    jsTrim "   " = "" ∧
    (serverJsPost
      { username := some "   ", text := some "hi", image := none,
        videoUrl := none, timestamp := some (.num 5), device := none }
      3 []).1.status = 200 ∧
    (serverJsPost
      { username := some "   ", text := some "hi", image := none,
        videoUrl := none, timestamp := some (.num 5), device := none }
      3 []).2.length = 1 := by
  decide

/-- C1 (amended): in part_000, a POST /messages whose username is absent or
empty after trimming fails with HTTP 400 and leaves the store unchanged,
and one whose content fields (text, image, videoUrl) are all absent fails
with HTTP 400 and leaves the store unchanged; in the in-memory server.js
variant the same holds only for a falsy username (absent or the empty
string, with no trimming) or all content fields absent. -/
theorem C1_theorem (p : Payload) (uuid nowIso : String)
    (parseIso : TsVal → Option String) (store0 : List C0Msg)
    (now : Nat) (store1 : List SMsg) :
    ((¬ strTruthy p.username ∨ jsTrim (p.username.getD "") = "") →
      part000Post p uuid nowIso parseIso store0 = ({ status := 400 }, store0)) ∧
    ((¬ strTruthy p.text ∧ ¬ strTruthy p.image ∧ ¬ strTruthy p.videoUrl) →
      part000Post p uuid nowIso parseIso store0 = ({ status := 400 }, store0)) ∧
    ((¬ strTruthy p.username ∨
        (¬ strTruthy p.text ∧ ¬ strTruthy p.image ∧ ¬ strTruthy p.videoUrl)) →
      serverJsPost p now store1 = ({ status := 400, success := false }, store1)) := by
  refine ⟨?_, ?_, ?_⟩
  · intro h
    rcases h with h | h
    · rw [Bool.not_eq_true] at h
      simp [part000Post, h]
    · simp [part000Post, h]
  · intro ⟨h1, h2, h3⟩
    rw [Bool.not_eq_true] at h1 h2 h3
    unfold part000Post
    split
    · rfl
    · simp [h1, h2, h3]
  · intro h
    rcases h with h | ⟨h1, h2, h3⟩
    · rw [Bool.not_eq_true] at h
      simp [serverJsPost, h]
    · rw [Bool.not_eq_true] at h1 h2 h3
      simp [serverJsPost, h1, h2, h3]

/-- Witness for C1_theorem at concrete inputs: a whitespace username, an
all-absent content body and an absent username are each rejected with the
store left empty. -/
theorem C1_witness :
    part000Post
      { username := some "  ", text := some "x", image := none,
        videoUrl := none, timestamp := none, device := none }
      "u1" "T" (fun _ => none) [] = ({ status := 400 }, []) ∧
    part000Post
      { username := some "bob", text := none, image := none,
        videoUrl := none, timestamp := none, device := none }
      "u1" "T" (fun _ => none) [] = ({ status := 400 }, []) ∧
    serverJsPost
      { username := none, text := some "x", image := none,
        videoUrl := none, timestamp := none, device := none }
      0 [] = ({ status := 400, success := false }, []) :=
  ⟨(C1_theorem _ "u1" "T" (fun _ => none) [] 0 []).1 (Or.inr (by decide)),
   (C1_theorem _ "u1" "T" (fun _ => none) [] 0 []).2.1 (by decide),
   (C1_theorem _ "u1" "T" (fun _ => none) [] 0 []).2.2 (Or.inl (by decide))⟩

/-- C2 is false of the first variant of src/server.js: GET /messages
returns the raw in-memory array in insertion order, so two successfully
inserted messages with distinct timestamps (300 inserted first, then 100)
come back in decreasing, not non-decreasing, timestamp order. -/
theorem C2_counterexample :
    ¬ ((serverJsGet
          ((serverJsPost
              { username := some "bob", text := some "second", image := none,
                videoUrl := none, timestamp := some (.num 100), device := none } 1
              ((serverJsPost
                  { username := some "alice", text := some "first", image := none,
                    videoUrl := none, timestamp := some (.num 300), device := none }
                  0 []).2)).2)).Pairwise
        fun a b => tsNumOf a ≤ tsNumOf b) := by
  decide

/-- C2 (amended): in the SQL-backed variants part_008 and part_005,
GET /messages always returns a sequence in non-decreasing timestamp order
regardless of the store's insertion order; the in-memory server.js variant
instead returns the store verbatim in insertion order. -/
theorem C2_theorem (store : List PMsg) (q : Option Nat) (s : List SMsg) :
    ((part008Get store q).Pairwise fun a b => a.timestamp ≤ b.timestamp) ∧
    ((part005Get store q).Pairwise fun a b => a.timestamp ≤ b.timestamp) ∧
    serverJsGet s = s :=
  ⟨part008Get_sorted store q, part008Get_sorted store q, rfl⟩

/-- C3 is false of the CockroachDB variant of src/server.js: its
GET /messages runs ORDER BY timestamp ASC LIMIT n, so with stored
timestamps 100, 200, 300 and limit=1 it returns the OLDEST message
(timestamp 100), not the most recent one (timestamp 300). -/
theorem C3_counterexample :
    serverJsCrdbGet c3Store (some 1) = [⟨"i1", "a", "x", 100⟩] ∧
    ([⟨"i1", "a", "x", 100⟩] : List PMsg) ≠ [⟨"i3", "c", "z", 300⟩] := by
  decide

/-- C3 (amended): in part_008 (and the identical part_005) the claim holds:
GET /messages with limit=N returns the N most recent messages by timestamp,
oldest-first — the result is sorted non-decreasingly, has length
min(min(N, 100), store size), draws only from the store, dominates every
excluded message's timestamp, and on timestamps 100/200/300 with limit=1
returns exactly the timestamp-300 row.  The CockroachDB variant of
src/server.js instead keeps the N oldest rows. -/
theorem C3_theorem (store : List PMsg) (q : Option Nat) :
    ((part008Get store q).Pairwise fun a b => a.timestamp ≤ b.timestamp) ∧
    (part008Get store q).length = min (min (jsLimit q) 100) store.length ∧
    (∀ x ∈ part008Get store q, x ∈ store) ∧
    (∀ y ∈ store, y ∉ part008Get store q →
      ∀ x ∈ part008Get store q, y.timestamp ≤ x.timestamp) ∧
    part005Get store q = part008Get store q ∧
    (store = c3Store → q = some 1 →
      part008Get store q = [⟨"i3", "c", "z", 300⟩]) := by
  refine ⟨part008Get_sorted store q, part008Get_length store q,
    part008Get_mem store q, part008Get_most_recent store q, rfl, ?_⟩
  rintro rfl rfl
  decide

/-- Witness for C3_theorem at a concrete store: limit=1 over timestamps
100, 200, 300 yields the timestamp-300 row, and the excluded timestamp-100
row is dominated by it. -/
theorem C3_witness :
    part008Get c3Store (some 1) = [⟨"i3", "c", "z", 300⟩] ∧
    (100 : Int) ≤ 300 :=
  ⟨(C3_theorem c3Store (some 1)).2.2.2.2.2 rfl rfl,
   (C3_theorem c3Store (some 1)).2.2.2.1 ⟨"i1", "a", "x", 100⟩ (by decide)
      (by decide) ⟨"i3", "c", "z", 300⟩ (by decide)⟩

/-- C9 is false of src/server.js: no DELETE /messages/:id route is
registered; the only DELETE route is the bulk /messages/clear. -/
theorem C9_counterexample :
    ("DELETE", "/messages/:id") ∉ serverJsRoutes := by
  decide

/-- C9 (amended): src/server.js has no single-delete endpoint.  Its only
DELETE operation is DELETE /messages/clear, which unconditionally empties
the whole store and responds with success; DELETE /messages/:id is not
among the registered routes. -/
theorem C9_theorem (store : List SMsg) :
    serverJsClear store = [] ∧
    ("DELETE", "/messages/clear") ∈ serverJsRoutes ∧
    ("DELETE", "/messages/:id") ∉ serverJsRoutes :=
  ⟨rfl, by decide, by decide⟩

/-- Helper: when the validation condition of src/server.js line 38 is
false, POST /messages succeeds and appends exactly serverJsMessage. -/
theorem serverJsPost_accepts (p : Payload) (now : Nat) (store : List SMsg)
    (h : (!strTruthy p.username ||
      (!strTruthy p.text && !strTruthy p.image && !strTruthy p.videoUrl))
        = false) :
    serverJsPost p now store =
      ({ status := 200, success := true }, store ++ [serverJsMessage p now]) := by
  simp [serverJsPost, h]

/-- C4 is false of src/server.js: username and text are stored verbatim —
the username keeps its surrounding whitespace (it is not trimmed) and a
6000-character text is stored at full length, not truncated to 5000. -/
theorem C4_counterexample :
    (serverJsPost bigTextPayload 0 []).1.status = 200 ∧
    ((serverJsPost bigTextPayload 0 []).2.map fun m => (m.text.getD "").length)
      = [6000] ∧
    ((serverJsPost bigTextPayload 0 []).2.map fun m => m.username)
      = [" carol "] ∧
    jsTrim " carol " = "carol" := by
  have hlen : bigText.length = 6000 := by
    show (String.mk (List.replicate 6000 'a')).length = 6000
    rw [stringMkLength, List.length_replicate]
  have hne : bigText ≠ "" := by
    intro h
    rw [h] at hlen
    exact absurd hlen (by decide)
  have hok := serverJsPost_accepts bigTextPayload 0 [] (by
    simp [bigTextPayload, strTruthy, hne])
  rw [hok]
  refine ⟨rfl, ?_, ?_, by decide⟩
  · have htext : (serverJsMessage bigTextPayload 0).text = some bigText := by
      show orNull (some bigText) = some bigText
      simp [orNull, hne]
    rw [List.nil_append, List.map_cons, List.map_nil, htext, Option.getD_some,
      hlen]
  · rw [List.nil_append, List.map_cons, List.map_nil]
    rfl

/-- C4 (amended): part_005 stores username and text exactly trimmed of
surrounding whitespace and never truncates: within the express.json body
limit, an oversized text (TEXT column) is stored at its full length, not
cut to 5000.  The 50-character username column bound is enforced by
rejection, not truncation: a trimmed username over 50 characters makes the
insert fail with the caught 500 and no row; a body over the parser limit
is answered 413 with no row.  src/server.js stores username and text of
every request reaching its handler completely verbatim, neither trimmed
nor truncated. -/
theorem C4_theorem (bodyLen : Nat) (p : Payload) (uuid : String)
    (sqlTs : Option TsVal → Option Int) (ts : Int) (store : List PMsg)
    (now : Nat) (s : List SMsg) :
    (bodyLen ≤ part005BodyLimit → trimTruthy p.username → trimTruthy p.text →
      sqlTs p.timestamp = some ts →
      (((jsTrim (p.username.getD "")).length ≤ 50 →
        part005Route bodyLen p uuid sqlTs store =
          ({ status := 201 },
            store ++ [{ id := uuid, username := jsTrim (p.username.getD ""),
                        text := jsTrim (p.text.getD ""), timestamp := ts }])) ∧
       (50 < (jsTrim (p.username.getD "")).length →
        part005Route bodyLen p uuid sqlTs store = ({ status := 500 }, store)))) ∧
    (bodyLen > part005BodyLimit →
      part005Route bodyLen p uuid sqlTs store = ({ status := 413 }, store)) ∧
    (strTruthy p.username → strTruthy p.text →
      serverJsPost p now s =
        ({ status := 200, success := true }, s ++ [serverJsMessage p now]) ∧
      (serverJsMessage p now).username = p.username.getD "" ∧
      (serverJsMessage p now).text = p.text) := by
  refine ⟨?_, ?_, ?_⟩
  · intro hb h1 h2 h3
    have hroute : part005Route bodyLen p uuid sqlTs store =
        part005Post p uuid sqlTs store := by
      unfold part005Route
      rw [if_neg (by omega)]
    constructor
    · intro hu
      rw [hroute]
      simp [part005Post, h1, h2, h3, Nat.not_lt.mpr hu]
    · intro hu
      rw [hroute]
      simp [part005Post, h1, h2, h3, hu]
  · intro hb
    unfold part005Route
    rw [if_pos hb]
  · intro h1 h2
    refine ⟨by simp [serverJsPost, h1, h2], rfl, ?_⟩
    change orNull p.text = p.text
    cases hp : p.text with
    | none => simp [orNull]
    | some t =>
      rw [hp] at h2
      simp only [strTruthy, bne_iff_ne, ne_eq] at h2
      simp [orNull, h2]

/-- Witness for C4_theorem: a whitespace-padded payload is stored trimmed
by part_005; a 51-character username is 500-rejected with no row; an
over-limit body is 413-rejected with no row; server.js stores the padded
username verbatim. -/
theorem C4_witness :
    part005Route 60
      { username := some " u ", text := some " t ", image := none,
        videoUrl := none, timestamp := some (.num 9), device := none }
      "id9" (fun _ => some 9) [] =
      ({ status := 201 },
        [{ id := "id9", username := jsTrim " u ", text := jsTrim " t ",
           timestamp := 9 }]) ∧
    jsTrim " u " = "u" ∧
    part005Route 60
      { username := some (String.mk (List.replicate 51 'x')), text := some "t",
        image := none, videoUrl := none, timestamp := some (.num 9),
        device := none }
      "id9" (fun _ => some 9) [] = ({ status := 500 }, []) ∧
    part005Route 102401
      { username := some " u ", text := some " t ", image := none,
        videoUrl := none, timestamp := some (.num 9), device := none }
      "id9" (fun _ => some 9) [] = ({ status := 413 }, []) ∧
    (serverJsPost
      { username := some " u ", text := some " t ", image := none,
        videoUrl := none, timestamp := none, device := none } 4 []).2.map
      (fun m => m.username) = [" u "] := by
  refine ⟨((C4_theorem 60 _ "id9" (fun _ => some 9) 9 [] 0 []).1 (by decide)
      (by decide) (by decide) rfl).1 (by decide), by decide,
    ((C4_theorem 60 _ "id9" (fun _ => some 9) 9 [] 0 []).1 (by decide)
      (by decide) (by decide) rfl).2 (by decide),
    (C4_theorem 102401 _ "id9" (fun _ => some 9) 9 [] 0 []).2.1 (by decide),
    ?_⟩
  rw [((C4_theorem 60 _ "id9" (fun _ => some 9) 9 [] 4 []).2.2 (by decide)
    (by decide)).1]
  decide

/-- C5 is false of src/server.js: a POST /messages without a timestamp is
accepted and stored with a null timestamp rather than defaulting to the
current server time (55 here), and an unparseable timestamp string is
accepted and stored verbatim rather than rejected with InvalidTimestamp. -/
theorem C5_counterexample :
    (serverJsPost
      { username := some "u", text := some "hi", image := none,
        videoUrl := none, timestamp := none, device := none } 55 []).2 =
      [{ id := "55", username := "u", text := some "hi", image := none,
         videoUrl := none, timestamp := none, youtubeUrl := none }] ∧
    (serverJsPost
      { username := some "u", text := some "hi", image := none,
        videoUrl := none, timestamp := some (.str "not-a-date"),
        device := none } 56 []).1.status = 200 ∧
    (serverJsPost
      { username := some "u", text := some "hi", image := none,
        videoUrl := none, timestamp := some (.str "not-a-date"),
        device := none } 56 []).2.map (fun m => m.timestamp) =
      [some (.str "not-a-date")] := by
  decide

/-- C5 (amended): part_000 defaults an absent (falsy) timestamp to the
current server time, stores the Date conversion of a supplied one, and an
unparseable supplied timestamp aborts the request (surfaced as the caught
500, not a 400 InvalidTimestamp) with no record stored.  src/server.js
performs no timestamp handling at all: the value is stored verbatim (null
when absent, never defaulted, never rejected). -/
theorem C5_theorem (p : Payload) (uuid nowIso : String)
    (parseIso : TsVal → Option String) (store : List C0Msg)
    (now : Nat) (s : List SMsg) (t : TsVal) (v : String) :
    (strTruthy p.username → jsTrim (p.username.getD "") ≠ "" →
      (strTruthy p.text ∨ strTruthy p.image ∨ strTruthy p.videoUrl) →
      ((¬ tsTruthy p.timestamp →
          part000Post p uuid nowIso parseIso store =
            ({ status := 200 }, store ++ [part000Msg p uuid nowIso])) ∧
       (p.timestamp = some t → tsTruthy p.timestamp → parseIso t = none →
          part000Post p uuid nowIso parseIso store = ({ status := 500 }, store)) ∧
       (p.timestamp = some t → tsTruthy p.timestamp → parseIso t = some v →
          part000Post p uuid nowIso parseIso store =
            ({ status := 200 }, store ++ [part000Msg p uuid v])))) ∧
    (strTruthy p.username →
      (strTruthy p.text ∨ strTruthy p.image ∨ strTruthy p.videoUrl) →
      serverJsPost p now s =
        ({ status := 200, success := true }, s ++ [serverJsMessage p now]) ∧
      (serverJsMessage p now).timestamp = p.timestamp) := by
  constructor
  · intro h1 h2 h3
    have hcond1 :
        (!strTruthy p.username || jsTrim (p.username.getD "") == "") = false := by
      simp [h1, h2]
    have hcond2 :
        (!strTruthy p.text && !strTruthy p.image && !strTruthy p.videoUrl)
          = false := by
      rcases h3 with h | h | h <;> simp [h]
    refine ⟨?_, ?_, ?_⟩
    · intro ht
      rw [Bool.not_eq_true] at ht
      simp [part000Post, hcond1, hcond2, ht]
    · intro hpt htt hpi
      rw [hpt] at htt
      simp [part000Post, hcond1, hcond2, htt, hpt, hpi]
    · intro hpt htt hpi
      rw [hpt] at htt
      simp [part000Post, hcond1, hcond2, htt, hpt, hpi]
  · intro h1 h3
    have hcond : (!strTruthy p.username ||
        (!strTruthy p.text && !strTruthy p.image && !strTruthy p.videoUrl))
          = false := by
      rcases h3 with h | h | h <;> simp [h1, h]
    exact ⟨by simp [serverJsPost, hcond], rfl⟩

/-- Witness for C5_theorem: the absent-timestamp default, a failing parse
and a succeeding parse, each at a concrete input. -/
theorem C5_witness :
    part000Post
      { username := some "u", text := some "x", image := none,
        videoUrl := none, timestamp := none, device := none }
      "id" "NOW" (fun _ => none) [] =
      ({ status := 200 },
        [part000Msg
          { username := some "u", text := some "x", image := none,
            videoUrl := none, timestamp := none, device := none } "id" "NOW"]) ∧
    part000Post
      { username := some "u", text := some "x", image := none,
        videoUrl := none, timestamp := some (.str "bad"), device := none }
      "id" "NOW" (fun _ => none) [] = ({ status := 500 }, []) ∧
    part000Post
      { username := some "u", text := some "x", image := none,
        videoUrl := none, timestamp := some (.num 9), device := none }
      "id" "NOW" (fun _ => some "1970-01-01T00:00:00.009Z") [] =
      ({ status := 200 },
        [part000Msg
          { username := some "u", text := some "x", image := none,
            videoUrl := none, timestamp := some (.num 9), device := none }
          "id" "1970-01-01T00:00:00.009Z"]) := by
  refine ⟨((C5_theorem _ "id" "NOW" (fun _ => none) [] 0 [] (.num 0) "").1
      (by decide) (by decide) (Or.inl (by decide))).1 (by decide),
    ((C5_theorem _ "id" "NOW" (fun _ => none) [] 0 [] (.str "bad") "").1
      (by decide) (by decide) (Or.inl (by decide))).2.1 rfl (by decide) rfl,
    ((C5_theorem _ "id" "NOW" (fun _ => some "1970-01-01T00:00:00.009Z") [] 0 []
        (.num 9) "1970-01-01T00:00:00.009Z").1
      (by decide) (by decide) (Or.inl (by decide))).2.2 rfl (by decide) rfl⟩

/-- Helper: POST /download-youtube either fails leaving the store
unchanged, or succeeds (with both collaborators having succeeded) having
appended exactly the one synthesized message. -/
theorem downloadYoutube_cases (p : DYReq) (ytdlp : Except String Nat)
    (upload : Except String String) (now : Nat) (store : List SMsg) :
    ((downloadYoutube p ytdlp upload now store).1.success = false ∧
      (downloadYoutube p ytdlp upload now store).2 = store) ∨
    (∃ url v, ytdlp = .ok v ∧ upload = .ok url ∧
      downloadYoutube p ytdlp upload now store =
        ({ status := 200, success := true }, store ++ [dyMessage p url now])) := by
  unfold downloadYoutube
  cases ytdlp with
  | error e =>
    split
    · exact Or.inl ⟨rfl, rfl⟩
    · split
      · exact Or.inl ⟨rfl, rfl⟩
      · split
        · exact Or.inl ⟨rfl, rfl⟩
        · exact Or.inl ⟨rfl, rfl⟩
  | ok v =>
    cases upload with
    | error e2 =>
      split
      · exact Or.inl ⟨rfl, rfl⟩
      · split
        · exact Or.inl ⟨rfl, rfl⟩
        · split
          · exact Or.inl ⟨rfl, rfl⟩
          · exact Or.inl ⟨rfl, rfl⟩
    | ok url =>
      split
      · exact Or.inl ⟨rfl, rfl⟩
      · split
        · exact Or.inl ⟨rfl, rfl⟩
        · split
          · exact Or.inl ⟨rfl, rfl⟩
          · exact Or.inr ⟨url, v, rfl, rfl, rfl⟩

/-- Helper: POST /messages of src/server.js either rejects leaving the
store unchanged or succeeds appending exactly one message. -/
theorem serverJsPost_cases (q : Payload) (n2 : Nat) (s2 : List SMsg) :
    serverJsPost q n2 s2 = ({ status := 400, success := false }, s2) ∨
    serverJsPost q n2 s2 =
      ({ status := 200, success := true }, s2 ++ [serverJsMessage q n2]) := by
  unfold serverJsPost
  split
  · exact Or.inl rfl
  · exact Or.inr rfl

/-- C6: in src/server.js, a successful POST /download-youtube response
corresponds to exactly one new record appended (the synthesized video
message) and every failing response — missing field, bad URL, failed
yt-dlp fetch (unreachable or unsupported source), failed upload — leaves
the store unchanged; likewise POST /messages appends exactly one record on
success and none on failure. -/
theorem C6_theorem (p : DYReq) (ytdlp : Except String Nat)
    (upload : Except String String) (now : Nat) (store : List SMsg)
    (q : Payload) (n2 : Nat) (s2 : List SMsg) :
    ((downloadYoutube p ytdlp upload now store).1.success = true →
      upload = .ok (extractOk upload) ∧
      (downloadYoutube p ytdlp upload now store).2 =
        store ++ [dyMessage p (extractOk upload) now]) ∧
    ((downloadYoutube p ytdlp upload now store).1.success = false →
      (downloadYoutube p ytdlp upload now store).2 = store) ∧
    (∀ e, ytdlp = .error e →
      (downloadYoutube p ytdlp upload now store).1.success = false ∧
      (downloadYoutube p ytdlp upload now store).2 = store) ∧
    ((serverJsPost q n2 s2).1.success = true →
      (serverJsPost q n2 s2).2 = s2 ++ [serverJsMessage q n2]) ∧
    ((serverJsPost q n2 s2).1.success = false →
      (serverJsPost q n2 s2).2 = s2) := by
  have hd := downloadYoutube_cases p ytdlp upload now store
  have hs := serverJsPost_cases q n2 s2
  refine ⟨?_, ?_, ?_, ?_, ?_⟩
  · intro h
    rcases hd with ⟨hf, _⟩ | ⟨url, v, hv, hu, heq⟩
    · rw [h] at hf
      simp at hf
    · subst hu
      refine ⟨rfl, ?_⟩
      rw [heq]
      rfl
  · intro h
    rcases hd with ⟨_, hst⟩ | ⟨url, v, hv, hu, heq⟩
    · exact hst
    · rw [heq] at h
      simp at h
  · intro e he
    rcases hd with ⟨hf, hst⟩ | ⟨url, v, hv, hu, heq⟩
    · exact ⟨hf, hst⟩
    · rw [he] at hv
      exact Except.noConfusion hv
  · intro h
    rcases hs with heq | heq
    · rw [heq] at h
      simp at h
    · rw [heq]
  · intro h
    rcases hs with heq | heq
    · rw [heq]
    · rw [heq] at h
      simp at h

/-- Witness for C6_theorem: a fully successful intake appends the one
synthesized message; a failed yt-dlp fetch and an invalid POST /messages
leave the store empty; a valid POST /messages appends one record. -/
theorem C6_witness :
    (downloadYoutube
      { youtubeUrl := some "https://youtu.be/abc", username := some "al",
        timestamp := some (.num 1) } (.ok 10) (.ok "https://cdn/x") 3 []).2 =
      [] ++ [dyMessage
        { youtubeUrl := some "https://youtu.be/abc", username := some "al",
          timestamp := some (.num 1) } (extractOk (.ok "https://cdn/x")) 3] ∧
    (downloadYoutube
      { youtubeUrl := some "https://youtu.be/abc", username := some "al",
        timestamp := some (.num 1) } (.error "unavailable")
      (.ok "https://cdn/x") 3 []).1.success = false ∧
    (downloadYoutube
      { youtubeUrl := some "https://youtu.be/abc", username := some "al",
        timestamp := some (.num 1) } (.error "unavailable")
      (.ok "https://cdn/x") 3 []).2 = [] ∧
    (serverJsPost
      { username := some "al", text := some "hi", image := none,
        videoUrl := none, timestamp := some (.num 1), device := none }
      4 []).2 =
      [] ++ [serverJsMessage
        { username := some "al", text := some "hi", image := none,
          videoUrl := none, timestamp := some (.num 1), device := none } 4] ∧
    (serverJsPost
      { username := none, text := some "hi", image := none,
        videoUrl := none, timestamp := some (.num 1), device := none }
      4 []).2 = [] := by
  refine ⟨((C6_theorem
      { youtubeUrl := some "https://youtu.be/abc", username := some "al",
        timestamp := some (.num 1) } (.ok 10) (.ok "https://cdn/x") 3 []
      { username := some "al", text := some "hi", image := none,
        videoUrl := none, timestamp := some (.num 1), device := none }
      4 []).1 (by decide)).2, ?_, ?_, ?_, ?_⟩
  · exact ((C6_theorem
      { youtubeUrl := some "https://youtu.be/abc", username := some "al",
        timestamp := some (.num 1) } (.error "unavailable")
      (.ok "https://cdn/x") 3 []
      { username := some "al", text := some "hi", image := none,
        videoUrl := none, timestamp := some (.num 1), device := none }
      4 []).2.2.1 "unavailable" rfl).1
  · exact ((C6_theorem
      { youtubeUrl := some "https://youtu.be/abc", username := some "al",
        timestamp := some (.num 1) } (.error "unavailable")
      (.ok "https://cdn/x") 3 []
      { username := some "al", text := some "hi", image := none,
        videoUrl := none, timestamp := some (.num 1), device := none }
      4 []).2.2.1 "unavailable" rfl).2
  · exact (C6_theorem
      { youtubeUrl := some "https://youtu.be/abc", username := some "al",
        timestamp := some (.num 1) } (.ok 10) (.ok "https://cdn/x") 3 []
      { username := some "al", text := some "hi", image := none,
        videoUrl := none, timestamp := some (.num 1), device := none }
      4 []).2.2.2.1 (by decide)
  · exact (C6_theorem
      { youtubeUrl := some "https://youtu.be/abc", username := some "al",
        timestamp := some (.num 1) } (.ok 10) (.ok "https://cdn/x") 3 []
      { username := none, text := some "hi", image := none,
        videoUrl := none, timestamp := some (.num 1), device := none }
      4 []).2.2.2.2 (by decide)

/-- C7 is false of src/server.js: message ids are Date.now().toString(),
so two distinct requests handled at the same millisecond (here
1700000000000) both receive the id "1700000000000". -/
theorem C7_counterexample :
    (((serverJsPost
        { username := some "alice", text := some "one", image := none,
          videoUrl := none, timestamp := some (.num 1), device := none }
        1700000000000
        ((serverJsPost
          { username := some "bob", text := some "two", image := none,
            videoUrl := none, timestamp := some (.num 2), device := none }
          1700000000000 []).2)).2).map fun m => m.id) =
      ["1700000000000", "1700000000000"] ∧
    ({ username := some "alice", text := some "one", image := none,
       videoUrl := none, timestamp := some (.num 1), device := none } : Payload)
      ≠ { username := some "bob", text := some "two", image := none,
          videoUrl := none, timestamp := some (.num 2), device := none } := by
  decide

/-- C7 (amended): in src/server.js the id of a created message is exactly
the decimal string of the request's Date.now() reading, so any two
requests handled at the same instant share an id (distinct instants give
distinct ids only because the strings differ); in part_001 the id is the
per-request uuid() draw, so ids of distinct requests are distinct exactly
when the uuid draws are. -/
theorem C7_theorem (p q : Payload) (now : Nat) (uuid : String)
    (store : List UMsg) :
    (serverJsMessage p now).id = Nat.repr now ∧
    (serverJsMessage p now).id = (serverJsMessage q now).id ∧
    (strTruthy p.username → strTruthy p.text → tsTruthy p.timestamp →
      (part001Post p uuid store).2.getLast? = some (part001Msg p uuid)) ∧
    (part001Msg p uuid).id = uuid := by
  refine ⟨rfl, rfl, ?_, rfl⟩
  intro h1 h2 h3
  have hcond : (!strTruthy p.username || !strTruthy p.text ||
      !tsTruthy p.timestamp) = false := by
    simp [h1, h2, h3]
  simp only [part001Post, hcond, Bool.false_eq_true, if_false]
  split
  · rename_i hgt
    rw [List.drop_append_of_le_length, List.getLast?_concat]
    rw [List.length_append] at hgt
    simp only [List.length_append, List.length_cons, List.length_nil]
    omega
  · exact List.getLast?_concat _

/-- Witness for C7_theorem: a concrete part_001 insert ends with the
uuid-identified record. -/
theorem C7_witness :
    (part001Post
      { username := some "zoe", text := some "hey", image := none,
        videoUrl := none, timestamp := some (.num 7), device := none }
      "uuid-1" []).2.getLast? = some (part001Msg
        { username := some "zoe", text := some "hey", image := none,
          videoUrl := none, timestamp := some (.num 7), device := none }
        "uuid-1") :=
  (C7_theorem
    { username := some "zoe", text := some "hey", image := none,
      videoUrl := none, timestamp := some (.num 7), device := none }
    { username := some "zoe", text := some "hey", image := none,
      videoUrl := none, timestamp := some (.num 7), device := none }
    0 "uuid-1" []).2.2.1 (by decide) (by decide) (by decide)

/-- Helper: in part_007 an over-limit inline image with a valid username
(within the VARCHAR(100) column bound) is accepted and stored truncated to
its first 50000000 characters. -/
theorem part007Post_oversized (uname img uuid : String)
    (parseDate : TsVal → Option Int) (now : Int) (store : List DMsg)
    (h1 : jsTrim uname ≠ "") (h1b : (jsTrim uname).length ≤ 100)
    (h2 : img ≠ "") (h3 : img.length > 50000000) :
    part007Post
      { username := some uname, text := none, image := some img,
        videoUrl := none, timestamp := none, device := none }
      uuid parseDate now store =
      ({ status := 201 },
        store ++ [{ id := uuid, username := jsTrim uname, text := jsTrim "",
                    image := some (String.mk (img.data.take 50000000)),
                    device := "Unknown", timestamp := now }]) := by
  have hc1 : trimTruthy (some uname) = true := by
    simp [trimTruthy, h1]
  have hc2 : strTruthy (some img) = true := by
    simp [strTruthy, h2]
  have h1c : ¬ (100 < (jsTrim uname).length) := by omega
  have hdev : ¬ (100 < ("Unknown" : String).length) := by decide
  unfold part007Post
  simp only [hc1, hc2, trimTruthy, strTruthy, tsTruthy, Option.getD_some, h3,
    Bool.not_true, Bool.not_false, Bool.false_and, Bool.and_false,
    Bool.or_false, Bool.false_or, Bool.false_eq_true, if_false,
    decide_eq_true_eq, if_true, decide_True, Bool.and_true, Bool.true_and]
  simp [h1, h2, h1c, hdev]

/-- C8 is false of part_007: an inline image exceeding the 50000000
character ceiling, inside a request body under the parser's 100mb limit,
is NOT rejected — the request succeeds with 201 and the record is stored
with the image truncated to the first 50000000 characters. -/
theorem C8_counterexample :
    (part007Route 50000100
      { username := some "dave", text := none, image := some bigImage,
        videoUrl := none, timestamp := none, device := none }
      "id1" (fun _ => none) 0 []).1.status = 201 ∧
    ((part007Route 50000100
      { username := some "dave", text := none, image := some bigImage,
        videoUrl := none, timestamp := none, device := none }
      "id1" (fun _ => none) 0 []).2.map fun m => (m.image.getD "").length)
      = [50000000] ∧
    bigImage.length = 50000001 ∧
    50000100 ≤ part007BodyLimit := by
  have hlen : bigImage.length = 50000001 := by
    show (String.mk (List.replicate 50000001 'a')).length = 50000001
    rw [stringMkLength, List.length_replicate]
  have hne : bigImage ≠ "" := by
    intro h
    rw [h] at hlen
    exact absurd hlen (by decide)
  have hda : bigImage.data = List.replicate 50000001 'a' := rfl
  have hroute : part007Route 50000100
      { username := some "dave", text := none, image := some bigImage,
        videoUrl := none, timestamp := none, device := none }
      "id1" (fun _ => none) 0 [] =
      part007Post
      { username := some "dave", text := none, image := some bigImage,
        videoUrl := none, timestamp := none, device := none }
      "id1" (fun _ => none) 0 [] := by
    unfold part007Route
    rw [if_neg (by decide)]
  have hok := part007Post_oversized "dave" bigImage "id1" (fun _ => none) 0 []
    (by decide) (by decide) hne (by rw [hlen]; decide)
  rw [hroute, hok]
  refine ⟨rfl, ?_, hlen, by decide⟩
  rw [List.nil_append, List.map_cons, List.map_nil, Option.getD_some,
    stringMkLength, hda, List.length_take, List.length_replicate]
  norm_num

/-- C8 (amended): part_007 rejects oversized requests only at the express
body parser: a raw body beyond the 100mb limit is answered 413 Payload Too
Large with no record.  An inline image that passes the parser but exceeds
50000000 characters (with a valid username inside the 100-character column
bound) is not rejected: the request succeeds with 201 and the record is
stored with the image silently truncated to exactly its first 50000000
characters — truncated and partially stored. -/
theorem C8_theorem (bodyLen : Nat) (uname img uuid : String)
    (parseDate : TsVal → Option Int) (now : Int) (store : List DMsg)
    (h1 : jsTrim uname ≠ "") (h1b : (jsTrim uname).length ≤ 100)
    (h2 : img ≠ "") (h3 : img.length > 50000000) :
    (bodyLen ≤ part007BodyLimit →
      part007Route bodyLen
        { username := some uname, text := none, image := some img,
          videoUrl := none, timestamp := none, device := none }
        uuid parseDate now store =
        ({ status := 201 },
          store ++ [{ id := uuid, username := jsTrim uname, text := jsTrim "",
                      image := some (String.mk (img.data.take 50000000)),
                      device := "Unknown", timestamp := now }]) ∧
      (String.mk (img.data.take 50000000)).length = 50000000) ∧
    (bodyLen > part007BodyLimit →
      part007Route bodyLen
        { username := some uname, text := none, image := some img,
          videoUrl := none, timestamp := none, device := none }
        uuid parseDate now store = ({ status := 413 }, store)) := by
  constructor
  · intro hb
    refine ⟨?_, ?_⟩
    · have hroute : part007Route bodyLen
          { username := some uname, text := none, image := some img,
            videoUrl := none, timestamp := none, device := none }
          uuid parseDate now store =
          part007Post
          { username := some uname, text := none, image := some img,
            videoUrl := none, timestamp := none, device := none }
          uuid parseDate now store := by
        unfold part007Route
        rw [if_neg (by omega)]
      rw [hroute]
      exact part007Post_oversized uname img uuid parseDate now store h1 h1b h2 h3
    · rw [stringMkLength, List.length_take]
      have hd : img.data.length = img.length := rfl
      omega
  · intro hb
    unfold part007Route
    rw [if_pos hb]

/-- Witness for C8_theorem at the concrete 50000001-character image, under
and over the body limit. -/
theorem C8_witness :
    part007Route 50000100
      { username := some "eve", text := none, image := some bigImage,
        videoUrl := none, timestamp := none, device := none }
      "id2" (fun _ => none) 0 [] =
      ({ status := 201 },
        [{ id := "id2", username := jsTrim "eve", text := jsTrim "",
           image := some (String.mk (bigImage.data.take 50000000)),
           device := "Unknown", timestamp := 0 }]) ∧
    (String.mk (bigImage.data.take 50000000)).length = 50000000 ∧
    part007Route 104857601
      { username := some "eve", text := none, image := some bigImage,
        videoUrl := none, timestamp := none, device := none }
      "id2" (fun _ => none) 0 [] = ({ status := 413 }, []) := by
  have hlen : bigImage.length = 50000001 := by
    show (String.mk (List.replicate 50000001 'a')).length = 50000001
    rw [stringMkLength, List.length_replicate]
  have hne : bigImage ≠ "" := by
    intro h
    rw [h] at hlen
    exact absurd hlen (by decide)
  have h := C8_theorem 50000100 "eve" bigImage "id2" (fun _ => none) 0 []
    (by decide) (by decide) hne (by rw [hlen]; decide)
  have h413 := C8_theorem 104857601 "eve" bigImage "id2" (fun _ => none) 0 []
    (by decide) (by decide) hne (by rw [hlen]; decide)
  exact ⟨(h.1 (by decide)).1, (h.1 (by decide)).2, h413.2 (by decide)⟩

/-- C10: part_001 caps the store at 500 messages: after every successful
POST /messages the new store is the suffix of (old store ++ [new message])
of length min(|old| + 1, 500) — exactly the most recently inserted
messages, the oldest discarded — so a store at or under the cap stays at
or under it. -/
theorem C10_theorem (p : Payload) (uuid : String) (store : List UMsg)
    (h1 : strTruthy p.username) (h2 : strTruthy p.text)
    (h3 : tsTruthy p.timestamp) :
    (part001Post p uuid store).1 = { status := 201 } ∧
    (part001Post p uuid store).2 =
      (store ++ [part001Msg p uuid]).drop ((store.length + 1) - 500) ∧
    (part001Post p uuid store).2.length = min (store.length + 1) 500 ∧
    (store.length ≤ 500 → (part001Post p uuid store).2.length ≤ 500) := by
  have hcond : (!strTruthy p.username || !strTruthy p.text ||
      !tsTruthy p.timestamp) = false := by
    simp [h1, h2, h3]
  have hs2 : (store ++ [part001Msg p uuid]).length = store.length + 1 := by
    simp
  have hdrop : (if (store ++ [part001Msg p uuid]).length > 500 then
        (store ++ [part001Msg p uuid]).drop
          ((store ++ [part001Msg p uuid]).length - 500)
      else store ++ [part001Msg p uuid]) =
      (store ++ [part001Msg p uuid]).drop ((store.length + 1) - 500) := by
    rw [hs2]
    by_cases hgt : store.length + 1 > 500
    · rw [if_pos hgt]
    · rw [if_neg hgt]
      have hz : store.length + 1 - 500 = 0 := by omega
      rw [hz, List.drop_zero]
  have hmain : part001Post p uuid store =
      ({ status := 201 },
        (store ++ [part001Msg p uuid]).drop ((store.length + 1) - 500)) := by
    simp only [part001Post, hcond, Bool.false_eq_true, if_false]
    rw [hdrop]
  refine ⟨by rw [hmain], by rw [hmain], ?_, ?_⟩
  · rw [hmain]
    simp only [List.length_drop, hs2]
    omega
  · intro hle
    rw [hmain]
    simp only [List.length_drop, hs2]
    omega

/-- Witness for C10_theorem: one valid insert into the empty store yields
the one-element store predicted by the cap formula. -/
theorem C10_witness :
    (part001Post
      { username := some "amy", text := some "yo", image := none,
        videoUrl := none, timestamp := some (.num 3), device := none }
      "u7" []).1 = { status := 201 } ∧
    (part001Post
      { username := some "amy", text := some "yo", image := none,
        videoUrl := none, timestamp := some (.num 3), device := none }
      "u7" []).2.length = min 1 500 :=
  ⟨(C10_theorem
      { username := some "amy", text := some "yo", image := none,
        videoUrl := none, timestamp := some (.num 3), device := none }
      "u7" [] (by decide) (by decide) (by decide)).1,
   (C10_theorem
      { username := some "amy", text := some "yo", image := none,
        videoUrl := none, timestamp := some (.num 3), device := none }
      "u7" [] (by decide) (by decide) (by decide)).2.2.1⟩
